import Mathlib

/-!
Verification of the goldfish emulated-camera `CallbackNotifier`
(src/camera/CallbackNotifier.cpp) against its natural-language specification.

The C++ class is shallowly embedded: its member state becomes a Lean
structure, each method becomes a pure function from state to state, and
every interaction with an external collaborator (the four registered
callback endpoints, the memory allocator, the JPEG compressor, the EXIF
metadata builder, the thumbnail generator) is recorded as an explicit
event in a returned trace.  Collaborator outcomes (allocation results,
compression success, thumbnail success, device geometry) are inputs,
gathered in an `Env` record, since the C++ code only branches on them.

Machine integers: `nsecs_t` (int64) timestamps and intervals are modelled
as `Int` (the realistic clock values never approach the int64 range);
the `uint32_t` message mask is modelled as `Nat` with bitwise operations.
-/

namespace CallbackNotifierModel

/-! ## Message kinds

Bit values of the CAMERA_MSG_* constants from the camera HAL header
(system/core/include/system/camera.h), in the order of the
`lCameraMessages` table at src/camera/CallbackNotifier.cpp lines 37-50. -/

def CAMERA_MSG_ERROR : Nat := 0x001
def CAMERA_MSG_SHUTTER : Nat := 0x002
def CAMERA_MSG_FOCUS : Nat := 0x004
def CAMERA_MSG_ZOOM : Nat := 0x008
def CAMERA_MSG_PREVIEW_FRAME : Nat := 0x010
def CAMERA_MSG_VIDEO_FRAME : Nat := 0x020
def CAMERA_MSG_POSTVIEW_FRAME : Nat := 0x040
def CAMERA_MSG_RAW_IMAGE : Nat := 0x080
def CAMERA_MSG_COMPRESSED_IMAGE : Nat := 0x100
def CAMERA_MSG_RAW_IMAGE_NOTIFY : Nat := 0x200
def CAMERA_MSG_PREVIEW_METADATA : Nat := 0x400

/-- The string table `lCameraMessages` (CallbackNotifier.cpp lines 37-50). -/
def lCameraMessages : List String :=
  ["CAMERA_MSG_ERROR",
   "CAMERA_MSG_SHUTTER",
   "CAMERA_MSG_FOCUS",
   "CAMERA_MSG_ZOOM",
   "CAMERA_MSG_PREVIEW_FRAME",
   "CAMERA_MSG_VIDEO_FRAME",
   "CAMERA_MSG_POSTVIEW_FRAME",
   "CAMERA_MSG_RAW_IMAGE",
   "CAMERA_MSG_COMPRESSED_IMAGE",
   "CAMERA_MSG_RAW_IMAGE_NOTIFY",
   "CAMERA_MSG_PREVIEW_METADATA"]

/-- `lCameraMessagesNum = sizeof(lCameraMessages)/sizeof(char*) = 11`. -/
def lCameraMessagesNum : Nat := lCameraMessages.length

/-! ## GetMessageStrings (CallbackNotifier.cpp lines 61-79)

The C loop pair (an outer `while (msg != 0 && out < max && index < N)`
containing an inner skip-loop over clear bits followed by a guarded
save-and-shift) is flattened into a single loop that consumes one bit per
iteration: each iteration either skips a clear low bit (no save) or saves
the name for a set low bit; re-testing `msg != 0 && out < max` between
individual skips cannot change the result, because skipping clear bits
never changes `out` and once `msg` reaches 0 no further string is saved
either way.  The function returns the list of saved strings; its length
is the C function's return value `out`. -/

def getMessageStringsLoop (msg index maxN out : Nat) : List String :=
  if msg ≠ 0 ∧ out < maxN ∧ index < lCameraMessagesNum then
    if msg % 2 = 0 then
      getMessageStringsLoop (msg / 2) (index + 1) maxN out
    else
      lCameraMessages.getD index "" ::
        getMessageStringsLoop (msg / 2) (index + 1) maxN (out + 1)
  else
    []
termination_by lCameraMessagesNum - index
decreasing_by
  all_goals exact Nat.sub_lt_sub_left (by omega) (Nat.lt_succ_self index)

/-- `GetMessageStrings(msg, strings, max)`: the list of strings saved into
the output array (in order); its length is the returned count. -/
def GetMessageStrings (msg : Nat) (maxN : Nat) : List String :=
  getMessageStringsLoop msg 0 maxN 0

/-! ## State and environment -/

/-- Camera HAL status codes used by this file (system/core errors). -/
inductive Status where
  | NO_ERROR
  | INVALID_OPERATION
  | BAD_VALUE
deriving DecidableEq

/-- A `camera_memory_t*` returned by the allocator: `handle` identifies the
allocation object itself, `data` its payload pointer (`->data`), the value
used as the release-by-identity key. -/
structure CamBuffer where
  handle : Nat
  data : Nat
deriving DecidableEq

/-- The member state of `class CallbackNotifier` (constructor at
CallbackNotifier.cpp lines 91-104).  A callback endpoint is `Option Nat`:
`none` is the NULL pointer, `some p` a concrete function pointer.
`mParamsThumbWidth`/`mParamsThumbHeight` model the two integers the
dispatch path reads from the `mCameraParameters` member
(KEY_JPEG_THUMBNAIL_WIDTH / KEY_JPEG_THUMBNAIL_HEIGHT). -/
structure CallbackNotifier where
  mNotifyCB : Option Nat
  mDataCB : Option Nat
  mDataCBTimestamp : Option Nat
  mGetMemoryCB : Option Nat
  mCBOpaque : Option Nat
  mLastFrameTimestamp : Int
  mFrameRefreshFreq : Int
  mMessageEnabler : Nat
  mJpegQuality : Nat
  mVideoRecEnabled : Bool
  mTakingPicture : Bool
  mCameraMemoryTs : List CamBuffer
  mParamsThumbWidth : Int
  mParamsThumbHeight : Int
deriving DecidableEq

/-- The freshly constructed notifier (constructor initializer list,
CallbackNotifier.cpp lines 91-104; the registry list starts empty and the
thumbnail parameters are arbitrary, taken as 0 here). -/
def initNotifier : CallbackNotifier where
  mNotifyCB := none
  mDataCB := none
  mDataCBTimestamp := none
  mGetMemoryCB := none
  mCBOpaque := none
  mLastFrameTimestamp := 0
  mFrameRefreshFreq := 0
  mMessageEnabler := 0
  mJpegQuality := 90
  mVideoRecEnabled := false
  mTakingPicture := false
  mCameraMemoryTs := []
  mParamsThumbWidth := 0
  mParamsThumbHeight := 0

/-- Outcomes of the external collaborators for one dispatch call: what the
device reports, what each allocator invocation returns (`none` models a
NULL `camera_memory_t*` or one with NULL `->data`), and whether thumbnail
generation and JPEG compression succeed. -/
structure Env where
  frameBufferSize : Nat
  frameWidth : Nat
  frameHeight : Nat
  videoAlloc : Option CamBuffer
  previewAlloc : Option CamBuffer
  jpegAlloc : Option CamBuffer
  thumbnailOk : Bool
  compressOk : Bool
  compressedSize : Nat
deriving DecidableEq

/-- Observable interactions with the collaborators.  Events that stand for
a call through a registered endpoint carry the endpoint's value, so that a
call through a NULL endpoint is visible in the trace. -/
inductive Event where
  | evNotify (cb : Option Nat) (msgType : Nat)
  | evData (cb : Option Nat) (msgType : Nat) (buf : CamBuffer)
  | evDataTimestamp (cb : Option Nat) (timestamp : Int) (msgType : Nat) (buf : CamBuffer)
  | evGetMemory (cb : Option Nat) (size : Nat)
  | evCopyFrame (buf : CamBuffer) (size : Nat)
  | evRelease (buf : CamBuffer)
  | evExifCreate
  | evThumbnail (ok : Bool)
  | evCompress (ok : Bool)
  | evCopyCompressed (buf : CamBuffer)
  | evExifFree
deriving DecidableEq

/-- True for an event that calls through a NULL endpoint. -/
def Event.isNullCall : Event → Bool
  | .evNotify none _ => true
  | .evData none _ _ => true
  | .evDataTimestamp none _ _ _ => true
  | .evGetMemory none _ => true
  | _ => false

/-- True for an invocation of the timestamped-data callback (the video
delivery callback): only the video-frame branch emits these. -/
def Event.isDataTimestampCall : Event → Bool
  | .evDataTimestamp _ _ _ _ => true
  | _ => false

/-- True for an event that only the still-capture branch can emit. -/
def Event.isStillCue : Event → Bool
  | .evNotify _ _ => true
  | .evExifCreate => true
  | .evThumbnail _ => true
  | .evCompress _ => true
  | .evCopyCompressed _ => true
  | .evExifFree => true
  | .evData _ m _ => m == CAMERA_MSG_COMPRESSED_IMAGE
  | _ => false

/-! ## Control-plane operations -/

/-- Modelled from the spec: the header's inline `isMessageEnabled(msg)`
(`(mMessageEnabler & msg_type) != 0`); CallbackNotifier.h is not part of
the provided sources.  The spec: "a bitset ... read by the dispatch path
to gate every notification". -/
def isMessageEnabled (s : CallbackNotifier) (msgType : Nat) : Bool :=
  (s.mMessageEnabler &&& msgType) != 0

/-- Modelled from the spec: the header's inline `isVideoRecordingEnabled()`
returning `mVideoRecEnabled`; CallbackNotifier.h is not part of the
provided sources. -/
def isVideoRecordingEnabled (s : CallbackNotifier) : Bool :=
  s.mVideoRecEnabled

/-- Modelled from the spec: the still-capture-request path (the camera's
`takePicture`, outside the provided sources) "sets the capture-intent
flag". -/
def takePicture (s : CallbackNotifier) : CallbackNotifier :=
  { s with mTakingPicture := true }

/-- `setCallbacks` (CallbackNotifier.cpp lines 114-129): replaces all four
endpoints and the opaque context. -/
def setCallbacks (s : CallbackNotifier)
    (notify_cb data_cb data_cb_timestamp get_memory user : Option Nat) :
    CallbackNotifier :=
  { s with
    mNotifyCB := notify_cb
    mDataCB := data_cb
    mDataCBTimestamp := data_cb_timestamp
    mGetMemoryCB := get_memory
    mCBOpaque := user }

/-- `enableMessage` (lines 131-140): `mMessageEnabler |= msg_type`. -/
def enableMessage (s : CallbackNotifier) (msg_type : Nat) : CallbackNotifier :=
  { s with mMessageEnabler := s.mMessageEnabler ||| msg_type }

/-- `disableMessage` (lines 142-151): `mMessageEnabler &= ~msg_type`.
`Nat.ldiff a b` is bitwise a AND NOT b, which is what the uint32
complement-and-mask computes for masks below `2^32`. -/
def disableMessage (s : CallbackNotifier) (msg_type : Nat) : CallbackNotifier :=
  { s with mMessageEnabler := Nat.ldiff s.mMessageEnabler msg_type }

/-- `enableVideoRecording(fps)` (lines 153-163).  The C++ body performs
`mFrameRefreshFreq = 1000000000LL / fps` with no validation of `fps`;
C integer division truncates toward zero (`Int.tdiv`), and division by
zero is undefined behaviour (an integer-divide trap), modelled as `none`.
On any non-zero `fps` the function returns `NO_ERROR`. -/
def enableVideoRecording (s : CallbackNotifier) (fps : Int) :
    Option (Status × CallbackNotifier) :=
  if fps = 0 then
    none
  else
    some (Status.NO_ERROR,
      { s with
        mVideoRecEnabled := true
        mLastFrameTimestamp := 0
        mFrameRefreshFreq := Int.tdiv 1000000000 fps })

/-- `disableVideoRecording()` (lines 165-173). -/
def disableVideoRecording (s : CallbackNotifier) : CallbackNotifier :=
  { s with
    mVideoRecEnabled := false
    mLastFrameTimestamp := 0
    mFrameRefreshFreq := 0 }

/-- The scan loop of `releaseRecordingFrame` (lines 177-184): walk the
registry; at the first entry whose `->data` equals `dataPtr`, call its
`release` and erase it, then `break`. -/
def releaseLoop (bufs : List CamBuffer) (dataPtr : Nat) :
    List Event × List CamBuffer :=
  match bufs with
  | [] => ([], [])
  | b :: rest =>
    if b.data = dataPtr then
      ([Event.evRelease b], rest)
    else
      let r := releaseLoop rest dataPtr
      (r.1, b :: r.2)

/-- `releaseRecordingFrame` (lines 175-185). -/
def releaseRecordingFrame (s : CallbackNotifier) (dataPtr : Nat) :
    List Event × CallbackNotifier :=
  let r := releaseLoop s.mCameraMemoryTs dataPtr
  (r.1, { s with mCameraMemoryTs := r.2 })

/-- `autoFocusComplete()` (lines 187-192): invokes `mNotifyCB`
unconditionally (no mask check, no NULL check). -/
def autoFocusComplete (s : CallbackNotifier) : List Event :=
  [Event.evNotify s.mNotifyCB CAMERA_MSG_FOCUS]

/-- `storeMetaDataInBuffers(enable)` (lines 194-198). -/
def storeMetaDataInBuffers (enable : Bool) : Status :=
  if enable then Status.INVALID_OPERATION else Status.NO_ERROR

/-- `cleanupCBNotifier()` (lines 204-218): resets every notification field;
does not touch `mCameraMemoryTs` (nor the camera parameters). -/
def cleanupCBNotifier (s : CallbackNotifier) : CallbackNotifier :=
  { s with
    mMessageEnabler := 0
    mNotifyCB := none
    mDataCB := none
    mDataCBTimestamp := none
    mGetMemoryCB := none
    mCBOpaque := none
    mLastFrameTimestamp := 0
    mFrameRefreshFreq := 0
    mJpegQuality := 90
    mVideoRecEnabled := false
    mTakingPicture := false }

/-- `onCameraDeviceError(err)` (lines 313-318): the only dispatch path
that NULL-checks its endpoint. -/
def onCameraDeviceError (s : CallbackNotifier) : List Event :=
  if isMessageEnabled s CAMERA_MSG_ERROR && s.mNotifyCB.isSome then
    [Event.evNotify s.mNotifyCB CAMERA_MSG_ERROR]
  else
    []

/-! ## Data-plane dispatch -/

/-- `isNewVideoFrameTime(timestamp)` (lines 324-332): admit iff
`timestamp - mLastFrameTimestamp >= mFrameRefreshFreq`, and exactly on
admission update `mLastFrameTimestamp` to the timestamp. -/
def isNewVideoFrameTime (s : CallbackNotifier) (timestamp : Int) :
    Bool × CallbackNotifier :=
  if timestamp - s.mLastFrameTimestamp ≥ s.mFrameRefreshFreq then
    (true, { s with mLastFrameTimestamp := timestamp })
  else
    (false, s)

/-- The video-frame branch of `onNextFrameAvailable` (lines 224-237).
The `&&` chain short-circuits, so `isNewVideoFrameTime` (and its pacing
update) runs only when the message is enabled and recording is active. -/
def videoBranch (s : CallbackNotifier) (env : Env) (timestamp : Int) :
    List Event × CallbackNotifier :=
  if isMessageEnabled s CAMERA_MSG_VIDEO_FRAME && isVideoRecordingEnabled s then
    if (isNewVideoFrameTime s timestamp).1 then
      match env.videoAlloc with
      | some buf =>
        ([Event.evGetMemory s.mGetMemoryCB env.frameBufferSize,
          Event.evCopyFrame buf env.frameBufferSize,
          Event.evDataTimestamp s.mDataCBTimestamp timestamp CAMERA_MSG_VIDEO_FRAME buf],
         { (isNewVideoFrameTime s timestamp).2 with
           mCameraMemoryTs :=
             (isNewVideoFrameTime s timestamp).2.mCameraMemoryTs ++ [buf] })
      | none =>
        ([Event.evGetMemory s.mGetMemoryCB env.frameBufferSize],
         (isNewVideoFrameTime s timestamp).2)
    else
      ([], (isNewVideoFrameTime s timestamp).2)
  else
    ([], s)

/-- The preview-frame branch (lines 239-249): allocate, copy, deliver
through the plain data callback, release immediately; no registry entry. -/
def previewBranch (s : CallbackNotifier) (env : Env) : List Event :=
  if isMessageEnabled s CAMERA_MSG_PREVIEW_FRAME then
    match env.previewAlloc with
    | some buf =>
      [Event.evGetMemory s.mGetMemoryCB env.frameBufferSize,
       Event.evCopyFrame buf env.frameBufferSize,
       Event.evData s.mDataCB CAMERA_MSG_PREVIEW_FRAME buf,
       Event.evRelease buf]
    | none =>
      [Event.evGetMemory s.mGetMemoryCB env.frameBufferSize]
  else
    []

/-- The compressed-image step of the still-capture branch (lines 265-309):
build EXIF data; if both configured thumbnail dimensions are positive,
attempt the thumbnail (failure only logged); compress; on compression
success allocate, copy, deliver and release; free the EXIF data on every
path. -/
def compressedStep (s : CallbackNotifier) (env : Env) : List Event :=
  Event.evExifCreate ::
    ((if s.mParamsThumbWidth > 0 ∧ s.mParamsThumbHeight > 0 then
        [Event.evThumbnail env.thumbnailOk]
      else [])
     ++ [Event.evCompress env.compressOk]
     ++ (if env.compressOk then
           match env.jpegAlloc with
           | some buf =>
             [Event.evGetMemory s.mGetMemoryCB env.compressedSize,
              Event.evCopyCompressed buf,
              Event.evData s.mDataCB CAMERA_MSG_COMPRESSED_IMAGE buf,
              Event.evRelease buf]
           | none =>
             [Event.evGetMemory s.mGetMemoryCB env.compressedSize]
         else [])
     ++ [Event.evExifFree])

/-- The still-capture branch (lines 251-310): if `mTakingPicture`, clear
it ("This happens just once.") and run the shutter / raw-image-notify /
compressed-image sequence, each step gated by its message bit. -/
def stillBranch (s : CallbackNotifier) (env : Env) :
    List Event × CallbackNotifier :=
  if s.mTakingPicture then
    ((if isMessageEnabled s CAMERA_MSG_SHUTTER then
        [Event.evNotify s.mNotifyCB CAMERA_MSG_SHUTTER]
      else [])
     ++ (if isMessageEnabled s CAMERA_MSG_RAW_IMAGE_NOTIFY then
           [Event.evNotify s.mNotifyCB CAMERA_MSG_RAW_IMAGE_NOTIFY]
         else [])
     ++ (if isMessageEnabled s CAMERA_MSG_COMPRESSED_IMAGE then
           compressedStep s env
         else []),
     { s with mTakingPicture := false })
  else
    ([], s)

/-- `onNextFrameAvailable(frame, timestamp, camera_dev)` (lines 220-311):
the three branches run in order on the evolving state. -/
def onNextFrameAvailable (s : CallbackNotifier) (env : Env) (timestamp : Int) :
    List Event × CallbackNotifier :=
  ((videoBranch s env timestamp).1
     ++ previewBranch (videoBranch s env timestamp).2 env
     ++ (stillBranch (videoBranch s env timestamp).2 env).1,
   (stillBranch (videoBranch s env timestamp).2 env).2)

/-- Iterated dispatch: deliver the frames with the given timestamps in
order, collecting each call's trace. -/
def runFrames (s : CallbackNotifier) (env : Env) (ts : List Int) :
    List (List Event) × CallbackNotifier :=
  match ts with
  | [] => ([], s)
  | t :: rest =>
    ((onNextFrameAvailable s env t).1 ::
       (runFrames (onNextFrameAvailable s env t).2 env rest).1,
     (runFrames (onNextFrameAvailable s env t).2 env rest).2)

/-! ## Concrete states and environments used in scenarios -/

/-- A notifier with a 10ns minimum video interval and recording active. -/
def pacState : CallbackNotifier :=
  { initNotifier with mVideoRecEnabled := true, mFrameRefreshFreq := 10 }

/-- The state after enabling the video-frame message and starting video
recording at 30 fps on a fresh notifier. -/
def s30 : CallbackNotifier :=
  { initNotifier with
    mMessageEnabler := CAMERA_MSG_VIDEO_FRAME
    mVideoRecEnabled := true
    mFrameRefreshFreq := 33333333 }

/-- A notifier whose outstanding registry holds three buffers with payload
pointers 5, 6 and 6 (two sharing a payload value). -/
def regState : CallbackNotifier :=
  { initNotifier with mCameraMemoryTs := [⟨1, 5⟩, ⟨2, 6⟩, ⟨3, 6⟩] }

/-- A notifier with the three still-capture messages (shutter,
raw-image-notify, compressed-image) enabled. -/
def stillState : CallbackNotifier :=
  enableMessage initNotifier
    (CAMERA_MSG_SHUTTER ||| CAMERA_MSG_RAW_IMAGE_NOTIFY |||
      CAMERA_MSG_COMPRESSED_IMAGE)

/-- A notifier with the compressed-image message enabled and a positive
configured thumbnail size. -/
def thumbState : CallbackNotifier :=
  { enableMessage initNotifier CAMERA_MSG_COMPRESSED_IMAGE with
    mParamsThumbWidth := 160
    mParamsThumbHeight := 120 }

/-- An environment in which every collaborator succeeds. -/
def goodEnv : Env where
  frameBufferSize := 100
  frameWidth := 4
  frameHeight := 4
  videoAlloc := some ⟨1, 11⟩
  previewAlloc := some ⟨2, 22⟩
  jpegAlloc := some ⟨3, 33⟩
  thumbnailOk := true
  compressOk := true
  compressedSize := 50

/-- An environment in which every allocation and the thumbnail and the
compression fail. -/
def failEnv : Env where
  frameBufferSize := 100
  frameWidth := 4
  frameHeight := 4
  videoAlloc := none
  previewAlloc := none
  jpegAlloc := none
  thumbnailOk := false
  compressOk := false
  compressedSize := 50

/-- An environment where the thumbnail and the compression both fail but
the allocator works. -/
def thumbFailEnv : Env where
  frameBufferSize := 100
  frameWidth := 4
  frameHeight := 4
  videoAlloc := some ⟨1, 11⟩
  previewAlloc := some ⟨2, 22⟩
  jpegAlloc := some ⟨3, 33⟩
  thumbnailOk := false
  compressOk := false
  compressedSize := 50

/-! ## Helper lemmas -/

/-- `isNewVideoFrameTime` never changes the configured interval. -/
theorem isNewVideoFrameTime_freq (s : CallbackNotifier) (t : Int) :
    (isNewVideoFrameTime s t).2.mFrameRefreshFreq = s.mFrameRefreshFreq := by
  unfold isNewVideoFrameTime
  split <;> rfl

/-- The video branch only touches the pacing timestamp and the registry:
every other field survives. -/
theorem videoBranch_preserves (s : CallbackNotifier) (env : Env) (t : Int) :
    (videoBranch s env t).2.mMessageEnabler = s.mMessageEnabler
    ∧ (videoBranch s env t).2.mTakingPicture = s.mTakingPicture
    ∧ (videoBranch s env t).2.mNotifyCB = s.mNotifyCB
    ∧ (videoBranch s env t).2.mDataCB = s.mDataCB
    ∧ (videoBranch s env t).2.mDataCBTimestamp = s.mDataCBTimestamp
    ∧ (videoBranch s env t).2.mGetMemoryCB = s.mGetMemoryCB
    ∧ (videoBranch s env t).2.mCBOpaque = s.mCBOpaque
    ∧ (videoBranch s env t).2.mVideoRecEnabled = s.mVideoRecEnabled
    ∧ (videoBranch s env t).2.mJpegQuality = s.mJpegQuality
    ∧ (videoBranch s env t).2.mFrameRefreshFreq = s.mFrameRefreshFreq
    ∧ (videoBranch s env t).2.mParamsThumbWidth = s.mParamsThumbWidth
    ∧ (videoBranch s env t).2.mParamsThumbHeight = s.mParamsThumbHeight := by
  unfold videoBranch isNewVideoFrameTime
  split
  · split
    · cases env.videoAlloc <;> simp
    · simp
  · simp

/-- The still branch leaves every field except the capture flag alone. -/
theorem stillBranch_preserves (s : CallbackNotifier) (env : Env) :
    (stillBranch s env).2.mCameraMemoryTs = s.mCameraMemoryTs
    ∧ (stillBranch s env).2.mLastFrameTimestamp = s.mLastFrameTimestamp
    ∧ (stillBranch s env).2.mMessageEnabler = s.mMessageEnabler := by
  unfold stillBranch
  split <;> simp

/-- After the still branch the capture flag is always clear. -/
theorem stillBranch_taking_false (s : CallbackNotifier) (env : Env) :
    (stillBranch s env).2.mTakingPicture = false := by
  unfold stillBranch
  split <;> simp_all

/-- Every dispatch call clears the capture flag. -/
theorem onNextFrameAvailable_taking_false (s : CallbackNotifier) (env : Env)
    (t : Int) : (onNextFrameAvailable s env t).2.mTakingPicture = false := by
  unfold onNextFrameAvailable
  exact stillBranch_taking_false _ _

/-- The admission test's verdict, as an inequality on the prior state. -/
theorem isNewVideoFrameTime_fst (s : CallbackNotifier) (t : Int) :
    (isNewVideoFrameTime s t).1 = true ↔
      s.mFrameRefreshFreq ≤ t - s.mLastFrameTimestamp := by
  unfold isNewVideoFrameTime
  split <;> simp_all

/-- On admission the pacing timestamp becomes the frame's timestamp. -/
theorem isNewVideoFrameTime_snd_true (s : CallbackNotifier) (t : Int)
    (h : (isNewVideoFrameTime s t).1 = true) :
    (isNewVideoFrameTime s t).2 = { s with mLastFrameTimestamp := t } := by
  unfold isNewVideoFrameTime at *
  split <;> simp_all

/-- On rejection the whole state is untouched. -/
theorem isNewVideoFrameTime_snd_false (s : CallbackNotifier) (t : Int)
    (h : (isNewVideoFrameTime s t).1 = false) :
    (isNewVideoFrameTime s t).2 = s := by
  unfold isNewVideoFrameTime at *
  split <;> simp_all

/-! ## Claim theorems -/

/-- C3: the admission test `isNewVideoFrameTime(t)` returns true iff
`t - lastFrameTimestamp >= minIntervalNanos`; exactly when it returns true
it updates `lastFrameTimestamp` to `t`, otherwise the pacing state is
unchanged; of two calls with `t1 < t2` and `t2 - t1 < minIntervalNanos` at
most one is admitted, and a call with `t2 - t1 >= minIntervalNanos` after
an admitted `t1` is always admitted. -/
theorem C3_isNewVideoFrameTime_pacing (s : CallbackNotifier) (t t1 t2 : Int) :
    ((isNewVideoFrameTime s t).1 = true ↔
        t - s.mLastFrameTimestamp ≥ s.mFrameRefreshFreq)
    ∧ ((isNewVideoFrameTime s t).1 = true →
        (isNewVideoFrameTime s t).2 = { s with mLastFrameTimestamp := t })
    ∧ ((isNewVideoFrameTime s t).1 = false → (isNewVideoFrameTime s t).2 = s)
    ∧ (t1 < t2 → t2 - t1 < s.mFrameRefreshFreq →
        ¬((isNewVideoFrameTime s t1).1 = true ∧
          (isNewVideoFrameTime (isNewVideoFrameTime s t1).2 t2).1 = true))
    ∧ ((isNewVideoFrameTime s t1).1 = true →
        s.mFrameRefreshFreq ≤ t2 - t1 →
        (isNewVideoFrameTime (isNewVideoFrameTime s t1).2 t2).1 = true) := by
  refine ⟨?_, isNewVideoFrameTime_snd_true s t, isNewVideoFrameTime_snd_false s t,
    ?_, ?_⟩
  · rw [isNewVideoFrameTime_fst]
  · intro h12 hlt hboth
    obtain ⟨h1, h2⟩ := hboth
    rw [isNewVideoFrameTime_snd_true s t1 h1] at h2
    rw [isNewVideoFrameTime_fst] at h1 h2
    simp only at h2
    omega
  · intro h1 h2
    rw [isNewVideoFrameTime_snd_true s t1 h1]
    rw [isNewVideoFrameTime_fst]
    simp only
    omega

/-- Witness for C3 at the concrete pacing state (`minInterval = 10`,
`last = 0`): frames at 5 and 7 are 2 apart, so not both admitted; after
the admitted frame at 10, a frame at 20 (10 apart) is admitted. -/
theorem C3_witness :
    ¬((isNewVideoFrameTime pacState 5).1 = true ∧
      (isNewVideoFrameTime (isNewVideoFrameTime pacState 5).2 7).1 = true)
    ∧ (isNewVideoFrameTime (isNewVideoFrameTime pacState 10).2 20).1 = true :=
  ⟨(C3_isNewVideoFrameTime_pacing pacState 0 5 7).2.2.2.1 (by decide) (by decide),
   (C3_isNewVideoFrameTime_pacing pacState 0 10 20).2.2.2.2 (by decide) (by decide)⟩

/-- C5 is a code bug: `enableVideoRecording` (CallbackNotifier.cpp lines
153-163) never validates `fps`.  At `fps = 0` it evaluates
`1000000000LL / 0` — an integer division by zero (modelled as `none`)
instead of returning an invalid-argument status; at `fps = -15` it returns
`NO_ERROR` and overwrites the prior pacing state (interval 10 becomes
-66666666) and the recording flag, where the claim demands a
configuration-error status with no state change. -/
theorem C5_enableVideoRecording_bug :
    enableVideoRecording initNotifier 0 = none
    ∧ enableVideoRecording pacState (-15) =
        some (Status.NO_ERROR,
          { pacState with
            mVideoRecEnabled := true
            mLastFrameTimestamp := 0
            mFrameRefreshFreq := -66666666 }) := by
  constructor
  · rfl
  · rfl

/-- C9: `cleanupCBNotifier` (lines 204-218) resets the message mask, all
four endpoints and the context, the pacing state, the JPEG quality (to its
default 90) and both flags, while the outstanding-buffer registry (and the
camera parameters) stay exactly as they were; no buffer is released. -/
theorem C9_cleanupCBNotifier (s : CallbackNotifier) :
    cleanupCBNotifier s =
      { mNotifyCB := none
        mDataCB := none
        mDataCBTimestamp := none
        mGetMemoryCB := none
        mCBOpaque := none
        mLastFrameTimestamp := 0
        mFrameRefreshFreq := 0
        mMessageEnabler := 0
        mJpegQuality := 90
        mVideoRecEnabled := false
        mTakingPicture := false
        mCameraMemoryTs := s.mCameraMemoryTs
        mParamsThumbWidth := s.mParamsThumbWidth
        mParamsThumbHeight := s.mParamsThumbHeight } := rfl

/-- C4 counterexample: the claim fails at the spec's own scenario.  After
enabling the video-frame message and starting recording at 30 fps (so
`minInterval = 33333333ns`, `lastFrameTimestamp = 0`), the next frame at
`t = 0` does NOT pass the admission test (`0 - 0 >= 33333333` is false),
and delivering frames at t=0, 10ms, 40ms fires the video callback only
for t=40ms — not for t=0 and t=40ms as claimed. -/
theorem C4_counterexample :
    enableVideoRecording (enableMessage initNotifier CAMERA_MSG_VIDEO_FRAME) 30
      = some (Status.NO_ERROR, s30)
    ∧ (isNewVideoFrameTime s30 0).1 = false
    ∧ (runFrames s30 goodEnv [0, 10000000, 40000000]).1.map
        (fun evs => evs.any Event.isDataTimestampCall) = [false, false, true] := by
  refine ⟨rfl, rfl, ?_⟩
  rfl

/-- C4 amended: `enableVideoRecording(fps)` (fps nonzero) resets
`lastFrameTimestamp` to 0, so the next frame qualifies if and only if its
timestamp is at least `1e9 / fps` — not unconditionally (real clock
timestamps, far larger than one interval, always qualify, but small
timestamps do not); in the 30 fps scenario with frames at t=0, t=10ms and
t=40ms, the video callback fires exactly for the frame at t=40ms. -/
theorem C4_first_frame_after_enable (s : CallbackNotifier) (fps t : Int)
    (st : Status) (s' : CallbackNotifier)
    (h : enableVideoRecording s fps = some (st, s')) :
    s'.mLastFrameTimestamp = 0
    ∧ ((isNewVideoFrameTime s' t).1 = true ↔ Int.tdiv 1000000000 fps ≤ t)
    ∧ (runFrames s30 goodEnv [0, 10000000, 40000000]).1.map
        (fun evs => evs.any Event.isDataTimestampCall) = [false, false, true] := by
  unfold enableVideoRecording at h
  split at h
  · exact absurd h (by simp)
  · obtain ⟨rfl, rfl⟩ : st = Status.NO_ERROR ∧ s' = _ := by
      simpa [Prod.ext_iff] using h.symm
    refine ⟨rfl, ?_, rfl⟩
    rw [isNewVideoFrameTime_fst]
    simp only
    omega

/-- Witness for the amended C4: enabling recording at 30 fps from a fresh
notifier with the video message on yields exactly `s30`, whose first frame
at t = 40000000 qualifies (40000000 >= 33333333). -/
theorem C4_witness :
    s30.mLastFrameTimestamp = 0
    ∧ ((isNewVideoFrameTime s30 40000000).1 = true ↔
        Int.tdiv 1000000000 30 ≤ 40000000)
    ∧ (runFrames s30 goodEnv [0, 10000000, 40000000]).1.map
        (fun evs => evs.any Event.isDataTimestampCall) = [false, false, true] :=
  C4_first_frame_after_enable
    (enableMessage initNotifier CAMERA_MSG_VIDEO_FRAME) 30 40000000
    Status.NO_ERROR s30 rfl

/-- C6 counterexample: with a configuration registered through
`setCallbacks` in which every endpoint is NULL, `autoFocusComplete`
(CallbackNotifier.cpp lines 187-192) still dispatches through the NULL
notify endpoint — it has no NULL check, so a null endpoint does not
suppress the path. -/
theorem C6_counterexample :
    (autoFocusComplete
        (setCallbacks initNotifier none none none none none)).any
      Event.isNullCall = true := rfl

/-- C6 amended: only `onCameraDeviceError` suppresses dispatch on a NULL
notify endpoint; `autoFocusComplete` invokes the notify endpoint
unconditionally (NULL included), and `onNextFrameAvailable` likewise calls
its endpoints whenever its gating conditions hold — with a NULL allocator
and the preview message enabled, the dispatch trace contains a call
through a NULL endpoint. -/
theorem C6_null_endpoint_dispatch (s : CallbackNotifier) :
    autoFocusComplete s = [Event.evNotify s.mNotifyCB CAMERA_MSG_FOCUS]
    ∧ (s.mNotifyCB = none → onCameraDeviceError s = [])
    ∧ (onNextFrameAvailable
          (enableMessage (setCallbacks initNotifier none none none none none)
            CAMERA_MSG_PREVIEW_FRAME) goodEnv 0).1.any Event.isNullCall
        = true := by
  refine ⟨rfl, ?_, rfl⟩
  intro hnone
  unfold onCameraDeviceError
  simp [hnone]

/-- Witness for the amended C6 at a state whose notify endpoint is NULL:
the device-error path is suppressed there while the focus path and the
dispatch path still call through NULL endpoints. -/
theorem C6_witness :
    autoFocusComplete (cleanupCBNotifier pacState)
        = [Event.evNotify (cleanupCBNotifier pacState).mNotifyCB CAMERA_MSG_FOCUS]
    ∧ onCameraDeviceError (cleanupCBNotifier pacState) = []
    ∧ (onNextFrameAvailable
          (enableMessage (setCallbacks initNotifier none none none none none)
            CAMERA_MSG_PREVIEW_FRAME) goodEnv 0).1.any Event.isNullCall
        = true :=
  ⟨(C6_null_endpoint_dispatch (cleanupCBNotifier pacState)).1,
   (C6_null_endpoint_dispatch (cleanupCBNotifier pacState)).2.1 rfl,
   (C6_null_endpoint_dispatch (cleanupCBNotifier pacState)).2.2⟩

/-- The scan loop of `releaseRecordingFrame` releases exactly the first
entry whose payload pointer matches (if any) and removes exactly that
entry, leaving everything else in order. -/
theorem releaseLoop_eq (bufs : List CamBuffer) (d : Nat) :
    releaseLoop bufs d =
      ((bufs.find? (fun b => b.data == d)).toList.map Event.evRelease,
       bufs.eraseP (fun b => b.data == d)) := by
  induction bufs with
  | nil => rfl
  | cons b rest ih =>
    by_cases h : b.data = d
    · simp [releaseLoop, h, List.find?_cons, List.eraseP_cons]
    · simp [releaseLoop, h, List.find?_cons, List.eraseP_cons, ih]

/-- C7: `releaseRecordingFrame(identity)` (lines 175-185): when no registry
entry's payload pointer equals the identity, it returns with no release
performed and the state unchanged; when some entry matches, it releases
exactly the first matching entry exactly once and removes exactly that
entry, so each call shrinks the registry by at most one entry. -/
theorem C7_releaseRecordingFrame (s : CallbackNotifier) (d : Nat) :
    ((∀ b ∈ s.mCameraMemoryTs, b.data ≠ d) →
        releaseRecordingFrame s d = ([], s))
    ∧ (∀ b, s.mCameraMemoryTs.find? (fun b => b.data == d) = some b →
        (releaseRecordingFrame s d).1 = [Event.evRelease b]
        ∧ (releaseRecordingFrame s d).2.mCameraMemoryTs
            = s.mCameraMemoryTs.eraseP (fun b => b.data == d))
    ∧ s.mCameraMemoryTs.length ≤
        (releaseRecordingFrame s d).2.mCameraMemoryTs.length + 1 := by
  unfold releaseRecordingFrame
  rw [releaseLoop_eq]
  refine ⟨?_, ?_, ?_⟩
  · intro hno
    have hfind : s.mCameraMemoryTs.find? (fun b => b.data == d) = none := by
      rw [List.find?_eq_none]
      intro b hb
      simpa using hno b hb
    have herase : s.mCameraMemoryTs.eraseP (fun b => b.data == d)
        = s.mCameraMemoryTs := by
      rw [List.eraseP_of_forall_not]
      intro b hb
      simpa using hno b hb
    simp [hfind, herase]
  · intro b hfind
    simp [hfind]
  · rcases hf : s.mCameraMemoryTs.find? (fun b => b.data == d) with _ | b
    · have herase : s.mCameraMemoryTs.eraseP (fun b => b.data == d)
          = s.mCameraMemoryTs := by
        rw [List.eraseP_of_forall_not]
        intro x hx
        simpa using List.find?_eq_none.mp hf x hx
      simp [herase]
    · have hmem := List.mem_of_find?_eq_some hf
      have hp := List.find?_some hf
      have hlen := List.length_eraseP_add_one (p := fun b => b.data == d) hmem hp
      simp only
      omega

/-- Witness for C7: a registry holding payload pointers 5, 6, 6.  Releasing
identity 9 (absent) is a no-op; releasing identity 6 releases exactly the
first of the two matching entries and removes only it. -/
theorem C7_witness :
    releaseRecordingFrame regState 9 = ([], regState)
    ∧ (releaseRecordingFrame regState 6).1 = [Event.evRelease ⟨2, 6⟩]
    ∧ (releaseRecordingFrame regState 6).2.mCameraMemoryTs
        = regState.mCameraMemoryTs.eraseP (fun b => b.data == 6) :=
  ⟨(C7_releaseRecordingFrame regState 9).1 (by decide),
   (C7_releaseRecordingFrame regState 6).2.1 ⟨2, 6⟩ (by decide)⟩

/-- The preview branch never invokes the timestamped-data callback. -/
theorem previewBranch_any_dataTs (s : CallbackNotifier) (env : Env) :
    (previewBranch s env).any Event.isDataTimestampCall = false := by
  unfold previewBranch
  split
  · cases env.previewAlloc <;> simp [Event.isDataTimestampCall]
  · simp

/-- The compressed-image step never invokes the timestamped-data callback. -/
theorem compressedStep_any_dataTs (s : CallbackNotifier) (env : Env) :
    (compressedStep s env).any Event.isDataTimestampCall = false := by
  unfold compressedStep
  cases env.compressOk <;> cases env.jpegAlloc <;> split <;>
    simp [Event.isDataTimestampCall]

/-- The still-capture branch never invokes the timestamped-data callback. -/
theorem stillBranch_any_dataTs (s : CallbackNotifier) (env : Env) :
    (stillBranch s env).1.any Event.isDataTimestampCall = false := by
  unfold stillBranch
  split
  · split <;> split <;> split <;>
      simp [List.any_append, Event.isDataTimestampCall,
        compressedStep_any_dataTs]
  · simp

/-- All timestamped-data invocations of a dispatch call come from its
video branch. -/
theorem onNextFrameAvailable_any_dataTs (s : CallbackNotifier) (env : Env)
    (t : Int) :
    (onNextFrameAvailable s env t).1.any Event.isDataTimestampCall
      = (videoBranch s env t).1.any Event.isDataTimestampCall := by
  unfold onNextFrameAvailable
  simp [List.any_append, previewBranch_any_dataTs, stillBranch_any_dataTs]

/-- The registry after a dispatch call is exactly the video branch's. -/
theorem onNextFrameAvailable_memoryTs (s : CallbackNotifier) (env : Env)
    (t : Int) :
    (onNextFrameAvailable s env t).2.mCameraMemoryTs
      = (videoBranch s env t).2.mCameraMemoryTs := by
  unfold onNextFrameAvailable
  exact (stillBranch_preserves _ _).1

/-- The video branch's delivery verdict: the timestamped-data callback
fires iff the message/recording/pacing gate passes and allocation
succeeds. -/
theorem videoBranch_any_dataTs (s : CallbackNotifier) (env : Env) (t : Int) :
    (videoBranch s env t).1.any Event.isDataTimestampCall
      = ((isMessageEnabled s CAMERA_MSG_VIDEO_FRAME && isVideoRecordingEnabled s)
          && (isNewVideoFrameTime s t).1 && env.videoAlloc.isSome) := by
  unfold videoBranch
  rcases halloc : env.videoAlloc with _ | buf <;> split <;> (try split) <;>
    simp_all [Event.isDataTimestampCall]

/-- C2: on every dispatch call the video-frame branch invokes the
timestamped-data callback iff the video-frame message is enabled, video
recording is active, the pacing admission test passes, and the allocation
succeeds; when the gate passes and allocation succeeds the branch
allocates one frame-buffer-sized buffer, copies the frame into it, invokes
the timestamped-data callback with kind video-frame, and appends the
buffer to the outstanding registry; when the gate passes but allocation
fails the branch does nothing beyond the allocation attempt and adds no
registry entry; and the dispatch call's final registry is exactly the
video branch's. -/
theorem C2_videoBranch_delivery (s : CallbackNotifier) (env : Env) (t : Int) :
    ((onNextFrameAvailable s env t).1.any Event.isDataTimestampCall
      = ((isMessageEnabled s CAMERA_MSG_VIDEO_FRAME && isVideoRecordingEnabled s)
          && (isNewVideoFrameTime s t).1 && env.videoAlloc.isSome))
    ∧ (∀ buf, isMessageEnabled s CAMERA_MSG_VIDEO_FRAME = true →
        isVideoRecordingEnabled s = true →
        (isNewVideoFrameTime s t).1 = true →
        env.videoAlloc = some buf →
        videoBranch s env t =
          ([Event.evGetMemory s.mGetMemoryCB env.frameBufferSize,
            Event.evCopyFrame buf env.frameBufferSize,
            Event.evDataTimestamp s.mDataCBTimestamp t CAMERA_MSG_VIDEO_FRAME buf],
           { (isNewVideoFrameTime s t).2 with
             mCameraMemoryTs := s.mCameraMemoryTs ++ [buf] }))
    ∧ (isMessageEnabled s CAMERA_MSG_VIDEO_FRAME = true →
        isVideoRecordingEnabled s = true →
        (isNewVideoFrameTime s t).1 = true →
        env.videoAlloc = none →
        videoBranch s env t =
          ([Event.evGetMemory s.mGetMemoryCB env.frameBufferSize],
           (isNewVideoFrameTime s t).2))
    ∧ (((isMessageEnabled s CAMERA_MSG_VIDEO_FRAME && isVideoRecordingEnabled s)
          && (isNewVideoFrameTime s t).1) = false →
        (videoBranch s env t).1 = []
        ∧ (videoBranch s env t).2.mCameraMemoryTs = s.mCameraMemoryTs)
    ∧ ((onNextFrameAvailable s env t).2.mCameraMemoryTs
        = (videoBranch s env t).2.mCameraMemoryTs) := by
  refine ⟨?_, ?_, ?_, ?_, onNextFrameAvailable_memoryTs s env t⟩
  · rw [onNextFrameAvailable_any_dataTs, videoBranch_any_dataTs]
  · intro buf hmsg hrec hadm halloc
    unfold videoBranch
    rw [hmsg, hrec, hadm, halloc, isNewVideoFrameTime_snd_true s t hadm]
    simp
  · intro hmsg hrec hadm halloc
    unfold videoBranch
    rw [hmsg, hrec, hadm, halloc]
    simp
  · intro hgate
    unfold videoBranch
    rcases Bool.and_eq_false_iff.mp hgate with h | h
    · rw [h]
      simp
    · rw [h, isNewVideoFrameTime_snd_false s t h]
      split <;> simp


/-- Witness for C2 in the 30 fps state: a frame at t = 40000000 with a
successful allocation is delivered and registered; with a failing
allocator only the allocation attempt happens. -/
theorem C2_witness :
    videoBranch s30 goodEnv 40000000 =
      ([Event.evGetMemory s30.mGetMemoryCB goodEnv.frameBufferSize,
        Event.evCopyFrame ⟨1, 11⟩ goodEnv.frameBufferSize,
        Event.evDataTimestamp s30.mDataCBTimestamp 40000000
          CAMERA_MSG_VIDEO_FRAME ⟨1, 11⟩],
       { (isNewVideoFrameTime s30 40000000).2 with
         mCameraMemoryTs := s30.mCameraMemoryTs ++ [⟨1, 11⟩] })
    ∧ videoBranch s30 failEnv 40000000 =
      ([Event.evGetMemory s30.mGetMemoryCB failEnv.frameBufferSize],
       (isNewVideoFrameTime s30 40000000).2) :=
  ⟨(C2_videoBranch_delivery s30 goodEnv 40000000).2.1 ⟨1, 11⟩ rfl rfl
      (by decide) rfl,
   (C2_videoBranch_delivery s30 failEnv 40000000).2.2.1 rfl rfl
      (by decide) rfl⟩

/-- The video branch emits no still-capture event. -/
theorem videoBranch_no_stillCue (s : CallbackNotifier) (env : Env) (t : Int) :
    (videoBranch s env t).1.any Event.isStillCue = false := by
  unfold videoBranch
  rcases env.videoAlloc with _ | buf <;> split <;> (try split) <;>
    simp_all [Event.isStillCue]

/-- The preview branch emits no still-capture event (its data callback
carries the preview-frame kind, not the compressed-image kind). -/
theorem previewBranch_no_stillCue (s : CallbackNotifier) (env : Env) :
    (previewBranch s env).any Event.isStillCue = false := by
  unfold previewBranch
  rcases env.previewAlloc with _ | buf <;> split <;>
    simp [Event.isStillCue, CAMERA_MSG_PREVIEW_FRAME, CAMERA_MSG_COMPRESSED_IMAGE]

/-- With the capture flag set, the still branch's trace is the three-step
sequence, each step gated by its message bit. -/
theorem stillBranch_events (s : CallbackNotifier) (env : Env)
    (hpic : s.mTakingPicture = true) :
    (stillBranch s env).1 =
      ((if isMessageEnabled s CAMERA_MSG_SHUTTER then
          [Event.evNotify s.mNotifyCB CAMERA_MSG_SHUTTER] else [])
       ++ (if isMessageEnabled s CAMERA_MSG_RAW_IMAGE_NOTIFY then
            [Event.evNotify s.mNotifyCB CAMERA_MSG_RAW_IMAGE_NOTIFY] else [])
       ++ (if isMessageEnabled s CAMERA_MSG_COMPRESSED_IMAGE then
            compressedStep s env else [])) := by
  unfold stillBranch
  rw [hpic]
  simp

/-- A dispatch call on a state whose capture flag is clear emits no
still-capture event. -/
theorem onNextFrameAvailable_quiet (s : CallbackNotifier) (env : Env) (t : Int)
    (h : s.mTakingPicture = false) :
    (onNextFrameAvailable s env t).1.any Event.isStillCue = false := by
  have hv := (videoBranch_preserves s env t).2.1
  have hstill : stillBranch (videoBranch s env t).2 env
      = ([], (videoBranch s env t).2) := by
    unfold stillBranch
    rw [hv, h]
    simp
  unfold onNextFrameAvailable
  rw [hstill]
  simp [List.any_append, videoBranch_no_stillCue, previewBranch_no_stillCue]

/-- From a state whose capture flag is clear, no frame of a whole run ever
carries a still-capture event, and the flag stays clear. -/
theorem runFrames_quiet (s : CallbackNotifier) (env : Env) (ts : List Int)
    (h : s.mTakingPicture = false) :
    (runFrames s env ts).1.all (fun evs => !(evs.any Event.isStillCue)) = true
    ∧ (runFrames s env ts).2.mTakingPicture = false := by
  induction ts generalizing s with
  | nil => exact ⟨rfl, h⟩
  | cons t rest ih =>
    have hq := onNextFrameAvailable_quiet s env t h
    have hnext := ih (onNextFrameAvailable s env t).2
      (onNextFrameAvailable_taking_false s env t)
    unfold runFrames
    simp [hq, hnext.1, hnext.2]

/-- C1: a still-capture request is consumed exactly once.  After the
still-capture-request call sets the capture flag, the first dispatched
frame carries the shutter and raw-image-notify notifications and the
compressed-image (EXIF-building) step, and clears the flag; every later
frame of any subsequent run carries no still-capture event at all, and the
flag remains clear. -/
theorem C1_still_capture_once (s : CallbackNotifier) (env : Env) (t : Int)
    (ts : List Int)
    (hsh : isMessageEnabled s CAMERA_MSG_SHUTTER = true)
    (hraw : isMessageEnabled s CAMERA_MSG_RAW_IMAGE_NOTIFY = true)
    (hcomp : isMessageEnabled s CAMERA_MSG_COMPRESSED_IMAGE = true) :
    Event.evNotify s.mNotifyCB CAMERA_MSG_SHUTTER
        ∈ (onNextFrameAvailable (takePicture s) env t).1
    ∧ Event.evNotify s.mNotifyCB CAMERA_MSG_RAW_IMAGE_NOTIFY
        ∈ (onNextFrameAvailable (takePicture s) env t).1
    ∧ Event.evExifCreate ∈ (onNextFrameAvailable (takePicture s) env t).1
    ∧ (onNextFrameAvailable (takePicture s) env t).2.mTakingPicture = false
    ∧ (runFrames (onNextFrameAvailable (takePicture s) env t).2 env ts).1.all
        (fun evs => !(evs.any Event.isStillCue)) = true
    ∧ (runFrames (onNextFrameAvailable (takePicture s) env t).2 env
        ts).2.mTakingPicture = false := by
  have hv := videoBranch_preserves (takePicture s) env t
  have hvpic : (videoBranch (takePicture s) env t).2.mTakingPicture = true := by
    rw [hv.2.1]
    rfl
  have hmsg : ∀ m, isMessageEnabled (videoBranch (takePicture s) env t).2 m
      = isMessageEnabled s m := by
    intro m
    unfold isMessageEnabled
    rw [hv.1]
    rfl
  have hnot : (videoBranch (takePicture s) env t).2.mNotifyCB = s.mNotifyCB :=
    hv.2.2.1
  have hstill := stillBranch_events (videoBranch (takePicture s) env t).2 env hvpic
  rw [hmsg, hmsg, hmsg, hnot, hsh, hraw, hcomp] at hstill
  simp only [if_true] at hstill
  have hrun := runFrames_quiet (onNextFrameAvailable (takePicture s) env t).2 env
    ts (onNextFrameAvailable_taking_false (takePicture s) env t)
  refine ⟨?_, ?_, ?_, onNextFrameAvailable_taking_false (takePicture s) env t,
    hrun.1, hrun.2⟩
  · unfold onNextFrameAvailable
    refine List.mem_append.mpr (Or.inr ?_)
    rw [hstill]
    simp
  · unfold onNextFrameAvailable
    refine List.mem_append.mpr (Or.inr ?_)
    rw [hstill]
    simp
  · unfold onNextFrameAvailable
    refine List.mem_append.mpr (Or.inr ?_)
    rw [hstill]
    simp [compressedStep]

/-- Witness for C1: from a fresh notifier with the shutter,
raw-image-notify and compressed-image messages enabled, request a still
capture and deliver a frame at t = 0 followed by frames at t = 1 and
t = 2. -/
theorem C1_witness :
    Event.evNotify stillState.mNotifyCB CAMERA_MSG_SHUTTER
        ∈ (onNextFrameAvailable (takePicture stillState) goodEnv 0).1
    ∧ Event.evNotify stillState.mNotifyCB CAMERA_MSG_RAW_IMAGE_NOTIFY
        ∈ (onNextFrameAvailable (takePicture stillState) goodEnv 0).1
    ∧ Event.evExifCreate ∈ (onNextFrameAvailable (takePicture stillState) goodEnv 0).1
    ∧ (onNextFrameAvailable (takePicture stillState) goodEnv 0).2.mTakingPicture
        = false
    ∧ (runFrames (onNextFrameAvailable (takePicture stillState) goodEnv 0).2
        goodEnv [1, 2]).1.all (fun evs => !(evs.any Event.isStillCue)) = true
    ∧ (runFrames (onNextFrameAvailable (takePicture stillState) goodEnv 0).2
        goodEnv [1, 2]).2.mTakingPicture = false :=
  C1_still_capture_once stillState goodEnv 0 [1, 2] rfl rfl rfl

/-- The video branch emits no metadata (EXIF) event. -/
theorem videoBranch_count_exif (s : CallbackNotifier) (env : Env) (t : Int) :
    (videoBranch s env t).1.count Event.evExifCreate = 0
    ∧ (videoBranch s env t).1.count Event.evExifFree = 0 := by
  unfold videoBranch
  rcases env.videoAlloc with _ | buf <;> split <;> (try split) <;> simp

/-- The preview branch emits no metadata (EXIF) event. -/
theorem previewBranch_count_exif (s : CallbackNotifier) (env : Env) :
    (previewBranch s env).count Event.evExifCreate = 0
    ∧ (previewBranch s env).count Event.evExifFree = 0 := by
  unfold previewBranch
  rcases env.previewAlloc with _ | buf <;> split <;> simp

/-- The compressed-image step builds exactly one EXIF handle, frees
exactly one, and always attempts compression, whatever the thumbnail,
compression and allocation outcomes. -/
theorem compressedStep_count_exif (s : CallbackNotifier) (env : Env) :
    (compressedStep s env).count Event.evExifCreate = 1
    ∧ (compressedStep s env).count Event.evExifFree = 1
    ∧ Event.evCompress env.compressOk ∈ compressedStep s env := by
  unfold compressedStep
  rcases env.jpegAlloc with _ | buf <;> cases env.compressOk <;> split <;>
    simp [List.count_append, List.count_cons]

/-- C8: in the still-capture branch with the compressed-image message
enabled, exactly one EXIF metadata handle is built and exactly one is
released on every exit path (compression success with delivered or failed
allocation, and compression failure), and compression is attempted
whatever the thumbnail outcome — thumbnail failure does not prevent it. -/
theorem C8_exif_lifecycle (s : CallbackNotifier) (env : Env) (t : Int)
    (hpic : s.mTakingPicture = true)
    (hcomp : isMessageEnabled s CAMERA_MSG_COMPRESSED_IMAGE = true) :
    (onNextFrameAvailable s env t).1.count Event.evExifCreate = 1
    ∧ (onNextFrameAvailable s env t).1.count Event.evExifFree = 1
    ∧ Event.evCompress env.compressOk ∈ (onNextFrameAvailable s env t).1 := by
  have hv := videoBranch_preserves s env t
  have hvpic : (videoBranch s env t).2.mTakingPicture = true := by
    rw [hv.2.1, hpic]
  have hmsg : ∀ m, isMessageEnabled (videoBranch s env t).2 m
      = isMessageEnabled s m := by
    intro m
    unfold isMessageEnabled
    rw [hv.1]
  have hstill := stillBranch_events (videoBranch s env t).2 env hvpic
  rw [hmsg, hmsg, hmsg, hcomp] at hstill
  simp only [if_true] at hstill
  unfold onNextFrameAvailable
  rw [hstill]
  have hc := compressedStep_count_exif (videoBranch s env t).2 env
  refine ⟨?_, ?_, ?_⟩
  · simp only [List.count_append, (videoBranch_count_exif s env t).1,
      (previewBranch_count_exif _ env).1, hc.1]
    split <;> split <;> simp
  · simp only [List.count_append, (videoBranch_count_exif s env t).2,
      (previewBranch_count_exif _ env).2, hc.2.1]
    split <;> split <;> simp
  · exact List.mem_append.mpr (Or.inr (List.mem_append.mpr (Or.inr hc.2.2)))

/-- Witness for C8 at the spec's edge case: capture requested, the
compressed-image message enabled, a positive configured thumbnail size
whose generation fails, and a failing compression — the EXIF handle is
still built once and freed once and compression is still attempted. -/
theorem C8_witness :
    (onNextFrameAvailable (takePicture thumbState) thumbFailEnv 0).1.count
        Event.evExifCreate = 1
    ∧ (onNextFrameAvailable (takePicture thumbState) thumbFailEnv 0).1.count
        Event.evExifFree = 1
    ∧ Event.evCompress thumbFailEnv.compressOk
        ∈ (onNextFrameAvailable (takePicture thumbState) thumbFailEnv 0).1 :=
  C8_exif_lifecycle (takePicture thumbState) thumbFailEnv 0 rfl rfl

/-! ## C10: characterizing GetMessageStrings -/

/-- Spec side: the positions below `lCameraMessagesNum` whose bit in `msg`
is set, in ascending order. -/
def lowSetBits (msg : Nat) : List Nat :=
  (List.range lCameraMessagesNum).filter (fun i => msg / 2 ^ i % 2 = 1)

/-- Spec side: the message names at the set bits of `msg`, scanning every
position from `index` up to the end of the table. -/
def msgNames (msg index : Nat) : List String :=
  if index < lCameraMessagesNum then
    if msg % 2 = 1 then
      lCameraMessages.getD index "" :: msgNames (msg / 2) (index + 1)
    else
      msgNames (msg / 2) (index + 1)
  else []
termination_by lCameraMessagesNum - index
decreasing_by
  all_goals exact Nat.sub_lt_sub_left (by omega) (Nat.lt_succ_self index)

/-- A zero message yields no names at any starting position. -/
theorem msgNames_zero (msg index : Nat) (h : msg = 0) :
    msgNames msg index = [] := by
  induction msg, index using msgNames.induct with
  | case1 msg index hlt h1 ih =>
    subst h
    simp at h1
  | case2 msg index hlt h1 ih =>
    subst h
    unfold msgNames
    simp_all
  | case3 msg index hlt =>
    unfold msgNames
    simp_all

/-- The C loop truncates the full ascending name scan to the room left in
the output array. -/
theorem getMessageStringsLoop_eq_msgNames (msg index maxN out : Nat) :
    getMessageStringsLoop msg index maxN out
      = (msgNames msg index).take (maxN - out) := by
  induction msg, index, maxN, out using getMessageStringsLoop.induct with
  | case1 msg index maxN out hcond h0 ih =>
    unfold getMessageStringsLoop msgNames
    rw [if_pos hcond, if_pos hcond.2.2, if_neg (by omega : ¬msg % 2 = 1)]
    rw [if_pos h0]
    exact ih
  | case2 msg index maxN out hcond h0 ih =>
    unfold getMessageStringsLoop msgNames
    rw [if_pos hcond, if_pos hcond.2.2, if_pos (by omega : msg % 2 = 1)]
    rw [if_neg h0]
    rw [(by omega : maxN - out = (maxN - (out + 1)) + 1)]
    rw [List.take_succ_cons]
    rw [ih]
  | case3 msg index maxN out hcond =>
    unfold getMessageStringsLoop
    rw [if_neg hcond]
    rcases Decidable.em (msg = 0) with h | h
    · rw [msgNames_zero msg index h]
      simp
    · rcases Decidable.em (out < maxN) with h2 | h2
      · rcases Decidable.em (index < lCameraMessagesNum) with h3 | h3
        · exact absurd ⟨h, h2, h3⟩ hcond
        · unfold msgNames
          rw [if_neg h3]
          simp
      · rw [(by omega : maxN - out = 0)]
        simp

/-- The ascending name scan is exactly the name table read at the set bit
positions. -/
theorem msgNames_eq_filter (msg index : Nat) :
    msgNames msg index
      = ((List.range (lCameraMessagesNum - index)).filter
          (fun j => msg / 2 ^ j % 2 = 1)).map
          (fun j => lCameraMessages.getD (index + j) "") := by
  induction msg, index using msgNames.induct with
  | case1 msg index hlt h1 ih =>
    unfold msgNames
    rw [if_pos hlt, if_pos h1]
    rw [(by omega : lCameraMessagesNum - index
          = (lCameraMessagesNum - (index + 1)) + 1)]
    rw [List.range_succ_eq_map]
    rw [List.filter_cons]
    have h0 : (fun j => decide (msg / 2 ^ j % 2 = 1)) 0 = true := by
      simp [h1]
    rw [List.filter_map]
    have hpred : (List.range (lCameraMessagesNum - (index + 1))).filter
        ((fun j => decide (msg / 2 ^ j % 2 = 1)) ∘ Nat.succ)
        = (List.range (lCameraMessagesNum - (index + 1))).filter
          (fun j => decide (msg / 2 / 2 ^ j % 2 = 1)) := by
      apply List.filter_congr
      intro j hj
      simp only [Function.comp_apply, decide_eq_decide]
      rw [Nat.div_div_eq_div_mul, pow_succ]
      rw [Nat.mul_comm]
    have hfun : (fun j => lCameraMessages.getD (index + 1 + j) "")
        = ((fun j => lCameraMessages.getD (index + j) "") ∘ Nat.succ) := by
      funext j
      simp only [Function.comp_apply]
      congr 1
      omega
    simp only [h0, if_true]
    rw [hpred, ih, hfun]
    simp [List.map_map]
  | case2 msg index hlt h1 ih =>
    unfold msgNames
    rw [if_pos hlt, if_neg h1]
    rw [(by omega : lCameraMessagesNum - index
          = (lCameraMessagesNum - (index + 1)) + 1)]
    rw [List.range_succ_eq_map]
    rw [List.filter_cons]
    have h0 : (fun j => decide (msg / 2 ^ j % 2 = 1)) 0 = false := by
      simp
      omega
    rw [List.filter_map]
    have hpred : (List.range (lCameraMessagesNum - (index + 1))).filter
        ((fun j => decide (msg / 2 ^ j % 2 = 1)) ∘ Nat.succ)
        = (List.range (lCameraMessagesNum - (index + 1))).filter
          (fun j => decide (msg / 2 / 2 ^ j % 2 = 1)) := by
      apply List.filter_congr
      intro j hj
      simp only [Function.comp_apply, decide_eq_decide]
      rw [Nat.div_div_eq_div_mul, pow_succ]
      rw [Nat.mul_comm]
    have hfun : (fun j => lCameraMessages.getD (index + 1 + j) "")
        = ((fun j => lCameraMessages.getD (index + j) "") ∘ Nat.succ) := by
      funext j
      simp only [Function.comp_apply]
      congr 1
      omega
    simp only [h0, Bool.false_eq_true, if_false]
    rw [hpred, ih, hfun]
    simp [List.map_map]
  | case3 msg index hlt =>
    unfold msgNames
    rw [if_neg hlt]
    rw [(by omega : lCameraMessagesNum - index = 0)]
    simp

/-- C10: for every mask and capacity, `GetMessageStrings(msg, strings,
max)` saves exactly the message names at the set bits among the lowest 11
positions of `msg`, in ascending bit-position order, truncated to `max`
entries; its return value is `min max (number of set low bits)`; bits at
position 11 and above are ignored. -/
theorem C10_GetMessageStrings (msg maxN : Nat) :
    GetMessageStrings msg maxN
      = ((lowSetBits msg).map (fun i => lCameraMessages.getD i "")).take maxN
    ∧ (GetMessageStrings msg maxN).length = min maxN (lowSetBits msg).length
    ∧ GetMessageStrings (msg % 2 ^ lCameraMessagesNum) maxN
        = GetMessageStrings msg maxN := by
  have hmain : ∀ m : Nat, GetMessageStrings m maxN
      = ((lowSetBits m).map (fun i => lCameraMessages.getD i "")).take maxN := by
    intro m
    unfold GetMessageStrings lowSetBits
    rw [getMessageStringsLoop_eq_msgNames, msgNames_eq_filter]
    simp
  have hbits : lowSetBits (msg % 2 ^ lCameraMessagesNum) = lowSetBits msg := by
    unfold lowSetBits
    apply List.filter_congr
    intro i hi
    have hilt : i < lCameraMessagesNum := List.mem_range.mp hi
    have hsplit : 2 ^ lCameraMessagesNum = 2 ^ i * 2 ^ (lCameraMessagesNum - i) := by
      rw [← pow_add]
      congr 1
      omega
    have hdiv : msg % 2 ^ lCameraMessagesNum / 2 ^ i
        = msg / 2 ^ i % 2 ^ (lCameraMessagesNum - i) := by
      rw [hsplit]
      exact Nat.mod_mul_right_div_self msg (2 ^ i) (2 ^ (lCameraMessagesNum - i))
    rw [hdiv, Nat.mod_mod_of_dvd]
    exact dvd_pow_self 2 (by omega : lCameraMessagesNum - i ≠ 0)
  refine ⟨hmain msg, ?_, ?_⟩
  · rw [hmain msg]
    rw [List.length_take, List.length_map]
  · rw [hmain msg, hmain (msg % 2 ^ lCameraMessagesNum), hbits]

end CallbackNotifierModel
